import Mathlib

/-!
Shallow embedding of the trivia REST backend (backend/flaskr/__init__.py)
and proofs about its handlers: the pagination helper, the category listing,
the question search/create endpoint, listing questions by category, the quiz
handler, and the error mapper.  The database is modelled as an explicit list
of rows passed to each handler; the HTTP layer is modelled by giving each
handler its parsed inputs (JSON body, query parameter, route parameter) and
returning either a response record or the abort it raises.
-/

set_option autoImplicit false

namespace Trivia

universe u

/-- A row of the questions table.  Per the data model (models.py is not in
the backend sources shown; the field list follows the format used by every
handler and the tests), the category is stored as a string, which is why the
quiz handler compares it against the stringified category id. -/
structure Question where
  id : Nat
  question : String
  answer : String
  category : String
  difficulty : Int
deriving DecidableEq

/-- A row of the categories table. -/
structure Category where
  id : Nat
  type : String
deriving DecidableEq

/-! ### Python-semantics primitives -/

/-- Python truthiness of an optional string field read with body.get:
None and the empty string are falsy. -/
def truthyStr : Option String → Bool
  | none => false
  | some s => !(s == "")

/-- Python truthiness of an optional integer field: None and 0 are falsy. -/
def truthyInt : Option Int → Bool
  | none => false
  | some n => !(n == 0)

/-- Python truthiness of an optional list field: None and the empty list
are falsy. -/
def truthyList : Option (List Nat) → Bool
  | none => false
  | some [] => false
  | some (_ :: _) => true

/-- Membership test for SQL IN over a list of ids. -/
def pyIn (i : Nat) : List Nat → Bool
  | [] => false
  | x :: xs => i == x || pyIn i xs

/-- Tests whether a character list starts with the given pattern. -/
def beginsWith : List Char → List Char → Bool
  | _, [] => true
  | [], _ :: _ => false
  | c :: cs, d :: ds => c == d && beginsWith cs ds

/-- Tests whether the pattern occurs contiguously inside the character
list; used to embed the case-sensitive SQL LIKE produced by
Question.question.contains(search_term). -/
def charsContain (pat : List Char) : List Char → Bool
  | [] => pat.isEmpty
  | c :: rest => beginsWith (c :: rest) pat || charsContain pat rest

/-- Case-sensitive substring test on strings. -/
def strContains (s pat : String) : Bool :=
  charsContain pat.data s.data

/-- Python dict lookup on an insertion-ordered association list with
natural-number keys. -/
def dictGet : List (Nat × String) → Nat → Option String
  | [], _ => none
  | p :: rest, k => if p.1 = k then some p.2 else dictGet rest k

/-- Python dict assignment d[k] = v on an insertion-ordered association
list: an existing key is updated in place, a new key is appended. -/
def dictSet : List (Nat × String) → Nat → String → List (Nat × String)
  | [], k, v => [(k, v)]
  | p :: rest, k, v => if p.1 = k then (k, v) :: rest else p :: dictSet rest k v

/-- The categories_returned dict built by the handlers: an empty dict filled
by the loop for cat in all_categories: d[cat.id] = cat.type. -/
def buildCategoriesMap (cats : List Category) : List (Nat × String) :=
  cats.foldl (fun m c => dictSet m c.id c.type) []

/-- Python dict lookup with string keys, for abort descriptions. -/
def dictGetStr : List (String × String) → String → Option String
  | [], _ => none
  | p :: rest, k => if p.1 = k then some p.2 else dictGetStr rest k

/-- Resolution of one slice endpoint in Python list slicing: a negative
index counts from the end (clamped below at 0), a non-negative index is
clamped above at the length. -/
def pyResolveIndex (len : Nat) (i : Int) : Nat :=
  if i < 0 then (Int.ofNat len + i).toNat else min i.toNat len

/-- Python list slice l[a:b]. -/
def pySlice {α : Type u} (l : List α) (a b : Int) : List α :=
  (l.take (pyResolveIndex l.length b)).drop (pyResolveIndex l.length a)

/-! ### Error mapper -/

/-- A Python value usable as the description argument of abort: either a
plain string (Werkzeug supplies a default string when no description is
given) or a structured dict. -/
inductive Desc where
  | str (s : String)
  | dict (entries : List (String × String))
deriving DecidableEq

/-- A Python exception escaping the error mapper. -/
inductive PyExc where
  | keyError
deriving DecidableEq

/-- Embedding of getErrorMessage(error, default_text).  The source runs
error.description["message"] inside try/except TypeError: subscripting a
string (or None) with a string raises TypeError, which is caught and mapped
to the default text; subscripting a dict that lacks the key "message"
raises KeyError, which the except clause does not catch, so it escapes. -/
def getErrorMessage (description : Desc) (default_text : String) : Except PyExc String :=
  match description with
  | .str _ => .ok default_text
  | .dict entries =>
    match dictGetStr entries "message" with
    | some msg => .ok msg
    | none => .error .keyError

/-- The uniform JSON error envelope produced by the error handlers. -/
structure ErrorEnvelope where
  success : Bool
  error : Nat
  message : String
deriving DecidableEq

/-- Embedding of the errorhandler(400) body. -/
def bad_request (description : Desc) : Except PyExc ErrorEnvelope :=
  (getErrorMessage description "bad request").map fun m => ⟨false, 400, m⟩

/-- Embedding of the errorhandler(404) body. -/
def ressource_not_found (description : Desc) : Except PyExc ErrorEnvelope :=
  (getErrorMessage description "resource not found").map fun m => ⟨false, 404, m⟩

/-- Embedding of the errorhandler(422) body. -/
def unprocessable (description : Desc) : Except PyExc ErrorEnvelope :=
  (getErrorMessage description "unprocessable").map fun m => ⟨false, 422, m⟩

/-- An abort raised by a handler: the HTTP code together with the optional
message dict passed as description.  abort(code) with no description leaves
Werkzeug's default string description in place; abort(code, m) in this code
base always passes a dict of the shape m = some text, embedded below by
descOf. -/
inductive HError where
  | abort (code : Nat) (description : Option String)
deriving DecidableEq

/-- The description object an abort carries, as seen by getErrorMessage:
no explicit description means Werkzeug's default string; an explicit one is
the dict with a single "message" entry, matching every abort call in the
source. -/
def descOf : Option String → Desc
  | none => .str "HTTP error description"
  | some m => .dict [("message", m)]

/-- Dispatch of an abort to the matching error handler.  The 405 and 500
handlers return hard-coded messages and ignore the description. -/
def renderError : HError → Except PyExc ErrorEnvelope
  | .abort code d =>
    if code = 400 then bad_request (descOf d)
    else if code = 404 then ressource_not_found (descOf d)
    else if code = 405 then .ok ⟨false, 405, "method not allowed"⟩
    else if code = 422 then unprocessable (descOf d)
    else .ok ⟨false, 500, "internal server error"⟩

/-! ### Pagination helper -/

def QUESTIONS_PER_PAGE : Nat := 10

/-- Embedding of paginate_questions(request, selection).  The page number is
the value of the page query parameter (default 1 when absent, any integer
accepted).  question.format() keeps exactly the five stored fields, so the
formatted record is the row itself and the helper is a pure Python slice of
the selection. -/
def paginate_questions (page : Int) (selection : List Question) : List Question :=
  pySlice selection ((page - 1) * QUESTIONS_PER_PAGE)
    ((page - 1) * QUESTIONS_PER_PAGE + QUESTIONS_PER_PAGE)

/-! ### Ordering by id (order_by(Question.id)) -/

/-- Insertion step of the id-ordered listing. -/
def insertById (q : Question) : List Question → List Question
  | [] => [q]
  | r :: rest => if q.id ≤ r.id then q :: r :: rest else r :: insertById q rest

/-- Embedding of Question.query...order_by(Question.id).all(): the stored
rows sorted by ascending id. -/
def orderById : List Question → List Question
  | [] => []
  | q :: rest => insertById q (orderById rest)

/-! ### GET /categories -/

/-- Successful response of get_all_categories. -/
structure CategoriesResp where
  success : Bool
  categories : List (Nat × String)
deriving DecidableEq

/-- Embedding of get_all_categories: abort(405) when the categories table
is empty, otherwise the id-to-type dict of every stored category. -/
def get_all_categories (cats : List Category) : Except HError CategoriesResp :=
  match cats with
  | [] => .error (.abort 405 none)
  | _ :: _ => .ok ⟨true, buildCategoriesMap cats⟩

/-! ### POST /questions (create or search) -/

/-- The parsed JSON body of POST /questions; each field is None when the
key is absent. -/
structure CreateSearchBody where
  searchTerm : Option String
  question : Option String
  answer : Option String
  category : Option String
  difficulty : Option Int
deriving DecidableEq

/-- Successful search response. -/
structure SearchResp where
  success : Bool
  questions : List Question
  total_questions : Nat
  current_category : List (Nat × String)
deriving DecidableEq

/-- Successful create response. -/
structure CreateResp where
  success : Bool
  created : Nat
  questions : List Question
  total_questions : Nat
deriving DecidableEq

/-- The two possible successful responses of the dual-purpose endpoint. -/
inductive CreateSearchResp where
  | search (r : SearchResp)
  | create (r : CreateResp)
deriving DecidableEq

/-- The auto-assigned primary key of a fresh row: one more than the largest
id in the table (the database serial). -/
def nextQuestionId (store : List Question) : Nat :=
  (store.foldl (fun m q => max m q.id) 0) + 1

/-- The create half of create_or_search_questions: the four mandatory-field
checks in source order, then the insertion and the paginated listing of all
questions.  The successful insertion path is modelled; the except branch
(abort 422) covers database failures outside this embedding. -/
def create_question_branch (qstore : List Question) (page : Int)
    (b : CreateSearchBody) : Except HError CreateSearchResp × List Question :=
  if truthyStr b.question = false then
    (.error (.abort 400 (some "Question is a mandatory field")), qstore)
  else if truthyStr b.answer = false then
    (.error (.abort 400 (some "Answer is a mandatory field")), qstore)
  else if truthyStr b.category = false then
    (.error (.abort 400 (some "Category is a mandatory field")), qstore)
  else if truthyInt b.difficulty = false then
    (.error (.abort 400 (some "Difficulty is a mandatory field")), qstore)
  else
    let newQ : Question :=
      ⟨nextQuestionId qstore, b.question.getD "", b.answer.getD "",
        b.category.getD "", b.difficulty.getD 0⟩
    let newStore := qstore ++ [newQ]
    let selections := orderById newStore
    (.ok (.create ⟨true, newQ.id, paginate_questions page selections,
        selections.length⟩), newStore)

/-- Embedding of create_or_search_questions.  Returns the handler outcome
together with the resulting questions table.  A missing body aborts with
400; a truthy searchTerm runs the search branch; otherwise control falls
through to the create branch. -/
def create_or_search_questions (qstore : List Question) (cstore : List Category)
    (page : Int) (body : Option CreateSearchBody) :
    Except HError CreateSearchResp × List Question :=
  match body with
  | none => (.error (.abort 400 none), qstore)
  | some b =>
    if truthyStr b.searchTerm = false then create_question_branch qstore page b
    else
      let s := b.searchTerm.getD ""
      let found := qstore.filter fun q => strContains q.question s
      match found with
      | [] => (.error (.abort 404 none), qstore)
      | _ :: _ =>
        (.ok (.search ⟨true, found, qstore.length, buildCategoriesMap cstore⟩), qstore)

/-! ### GET /categories/{category_id}/questions -/

/-- Successful response of get_questions_from_categories. -/
structure CategoryQuestionsResp where
  success : Bool
  questions : List Question
  total_questions : Nat
  current_category : Nat
deriving DecidableEq

/-- The selection queried by get_questions_from_categories: all questions
when the route parameter is the sentinel 0, otherwise the questions whose
stored (string) category equals the stringified id, ordered by id. -/
def questionsByCategory (store : List Question) (category_id : Nat) : List Question :=
  if category_id ≠ 0 then
    orderById (store.filter fun q => q.category == toString category_id)
  else
    orderById store

/-- Embedding of get_questions_from_categories: abort(400) on an empty
selection, abort(404) with an explicit message when the requested page of a
non-empty selection is empty, otherwise the paginated page with the
pre-pagination total and the requested category id echoed back. -/
def get_questions_from_categories (store : List Question) (category_id : Nat)
    (page : Int) : Except HError CategoryQuestionsResp :=
  match questionsByCategory store category_id with
  | [] => .error (.abort 400 none)
  | q :: rest =>
    match paginate_questions page (q :: rest) with
    | [] => .error (.abort 404 (some "No questions in selected page."))
    | p :: ps => .ok ⟨true, p :: ps, (q :: rest).length, category_id⟩

/-! ### POST /quizzes -/

/-- The id carried by the quiz_category object of the request body: a JSON
number or a JSON string (the frontend and the tests send strings). -/
inductive QuizCategoryId where
  | int (n : Int)
  | str (s : String)
deriving DecidableEq

/-- Python evaluation of the test current_category[id] != 0: an int
compares numerically; a string never equals the int 0, so every string id
passes the test, including "0". -/
def QuizCategoryId.ne0 : QuizCategoryId → Bool
  | .int n => !(n == 0)
  | .str _ => true

/-- Python str() applied to the category id, as in the category filter. -/
def QuizCategoryId.pyStr : QuizCategoryId → String
  | .int n => toString n
  | .str s => s

/-- The quiz_category object of the request body. -/
structure QuizCategory where
  id : QuizCategoryId
deriving DecidableEq

/-- The parsed JSON body of POST /quizzes. -/
structure QuizBody where
  previous_questions : Option (List Nat)
  quiz_category : Option QuizCategory
deriving DecidableEq

/-- The candidate set queried by play_quiz: the four query branches of the
source, selected by the truthiness of previous_questions and of
quiz_category together with the id != 0 test. -/
def quizCandidates (store : List Question) (b : QuizBody) : List Question :=
  if truthyList b.previous_questions = false then
    match b.quiz_category with
    | some c =>
      if c.id.ne0 then store.filter fun q => q.category == c.id.pyStr
      else store
    | none => store
  else
    let prev := b.previous_questions.getD []
    match b.quiz_category with
    | some c =>
      if c.id.ne0 then
        store.filter fun q => q.category == c.id.pyStr && !pyIn q.id prev
      else store.filter fun q => !pyIn q.id prev
    | none => store.filter fun q => !pyIn q.id prev

/-- Successful response of play_quiz: the randomly chosen question. -/
structure QuizResp where
  success : Bool
  question : Question
deriving DecidableEq

/-- A failure of play_quiz: either an abort routed to the error mapper or
the ValueError raised by random.randint(0, -1) when the candidate list is
empty (the unguarded selection of the source). -/
inductive QuizError where
  | httpError (e : HError)
  | emptyRange
deriving DecidableEq

/-- Embedding of play_quiz.  The draw of random.randint(0, n - 1) is
modelled by the parameter r reduced modulo the candidate count, so that
every possible draw is covered by some r; on an empty candidate list the
selection raises instead of returning. -/
def play_quiz (store : List Question) (body : Option QuizBody) (r : Nat) :
    Except QuizError QuizResp :=
  match body with
  | none => .error (.httpError (.abort 400
      (some "Please provide a JSON body with previous question Ids and optional category.")))
  | some b =>
    match quizCandidates store b with
    | [] => .error .emptyRange
    | q :: rest =>
      .ok ⟨true, (q :: rest).get ⟨r % (q :: rest).length, Nat.mod_lt r (Nat.succ_pos rest.length)⟩⟩

/-! ### Sample rows used to instantiate theorems with hypotheses -/

/-- A sample question row. -/
def q1 : Question := ⟨1, "What color is the sky?", "Blue", "1", 1⟩

/-- A second sample question row, in another category. -/
def q2 : Question := ⟨2, "What sound does a dog make?", "Woof", "2", 1⟩

/-- A sample category row. -/
def cat1 : Category := ⟨1, "Science"⟩

/-! ### Helper lemmas -/

theorem pyIn_iff (i : Nat) (l : List Nat) : pyIn i l = true ↔ i ∈ l := by
  induction l with
  | nil => simp [pyIn]
  | cons x xs ih => simp [pyIn, ih]

theorem beginsWith_iff (l pat : List Char) :
    beginsWith l pat = true ↔ ∃ t, l = pat ++ t := by
  induction pat generalizing l with
  | nil => simp [beginsWith]
  | cons d ds ih =>
    cases l with
    | nil => simp [beginsWith]
    | cons c cs =>
      simp [beginsWith, ih, List.cons_append, List.cons.injEq, exists_and_left]

theorem charsContain_iff (pat l : List Char) :
    charsContain pat l = true ↔ ∃ l1 l2, l = l1 ++ pat ++ l2 := by
  induction l with
  | nil => cases pat <;> simp [charsContain, List.isEmpty]
  | cons c rest ih =>
    simp only [charsContain, Bool.or_eq_true, beginsWith_iff, ih]
    constructor
    · rintro (⟨t, ht⟩ | ⟨l1, l2, h⟩)
      · exact ⟨[], t, by simp [ht]⟩
      · exact ⟨c :: l1, l2, by simp [h]⟩
    · rintro ⟨l1, l2, h⟩
      cases l1 with
      | nil => exact Or.inl ⟨l2, by simpa using h⟩
      | cons a l1 =>
        refine Or.inr ⟨l1, l2, ?_⟩
        simp only [List.cons_append, List.cons.injEq] at h
        exact h.2

theorem strContains_iff (s pat : String) :
    strContains s pat = true ↔ ∃ l1 l2, s.data = l1 ++ pat.data ++ l2 :=
  charsContain_iff pat.data s.data

theorem mem_insertById (a q : Question) (l : List Question) :
    a ∈ insertById q l ↔ a = q ∨ a ∈ l := by
  induction l with
  | nil => simp [insertById]
  | cons r rest ih =>
    by_cases h : q.id ≤ r.id <;> simp [insertById, h, ih]
    tauto

theorem length_insertById (q : Question) (l : List Question) :
    (insertById q l).length = l.length + 1 := by
  induction l with
  | nil => rfl
  | cons r rest ih =>
    by_cases h : q.id ≤ r.id <;> simp [insertById, h, ih]

theorem mem_orderById (a : Question) (l : List Question) :
    a ∈ orderById l ↔ a ∈ l := by
  induction l with
  | nil => simp [orderById]
  | cons q rest ih => simp [orderById, mem_insertById, ih]

theorem length_orderById (l : List Question) :
    (orderById l).length = l.length := by
  induction l with
  | nil => rfl
  | cons q rest ih => simp [orderById, length_insertById, ih]

theorem pairwise_insertById (q : Question) (l : List Question)
    (h : l.Pairwise fun a b => a.id ≤ b.id) :
    (insertById q l).Pairwise fun a b => a.id ≤ b.id := by
  induction l with
  | nil => simp [insertById]
  | cons r rest ih =>
    rcases List.pairwise_cons.mp h with ⟨hr, hrest⟩
    by_cases hle : q.id ≤ r.id
    · rw [insertById, if_pos hle]
      refine List.pairwise_cons.mpr ⟨?_, h⟩
      intro b hb
      rcases List.mem_cons.mp hb with rfl | hb
      · exact hle
      · exact le_trans hle (hr b hb)
    · rw [insertById, if_neg hle]
      refine List.pairwise_cons.mpr ⟨?_, ih hrest⟩
      intro b hb
      rcases (mem_insertById b q rest).mp hb with rfl | hb
      · exact le_of_not_le hle
      · exact hr b hb

theorem pairwise_orderById (l : List Question) :
    (orderById l).Pairwise fun a b => a.id ≤ b.id := by
  induction l with
  | nil => simp [orderById]
  | cons q rest ih => exact pairwise_insertById q _ ih

theorem dictGet_dictSet_self (m : List (Nat × String)) (k : Nat) (v : String) :
    dictGet (dictSet m k v) k = some v := by
  induction m with
  | nil => simp [dictSet, dictGet]
  | cons p rest ih =>
    by_cases h : p.1 = k <;> simp [dictSet, dictGet, h, ih]

theorem dictGet_dictSet_ne (m : List (Nat × String)) (k : Nat) (v : String)
    (k' : Nat) (h : k' ≠ k) :
    dictGet (dictSet m k v) k' = dictGet m k' := by
  have hkk : ¬(k = k') := fun he => h he.symm
  induction m with
  | nil => simp [dictSet, dictGet, hkk]
  | cons p rest ih =>
    by_cases hp : p.1 = k
    · have hpk : ¬(p.1 = k') := fun he => hkk (hp.symm.trans he)
      simp [dictSet, dictGet, hp, hpk, hkk]
    · simp [dictSet, dictGet, hp, ih]

theorem dictGet_foldl_not_mem (cats : List Category) (m : List (Nat × String))
    (k : Nat) :
    (∀ c ∈ cats, c.id ≠ k) →
    dictGet (cats.foldl (fun acc c => dictSet acc c.id c.type) m) k = dictGet m k := by
  induction cats generalizing m with
  | nil => intro _; rfl
  | cons c rest ih =>
    intro h
    rw [List.foldl_cons, ih _ (fun d hd => h d (List.mem_cons_of_mem c hd))]
    exact dictGet_dictSet_ne m c.id c.type k (fun he => h c (List.mem_cons_self c rest) he.symm)

theorem dictGet_foldl_mem (cats : List Category) (m : List (Nat × String))
    (c : Category) :
    (cats.map Category.id).Nodup → c ∈ cats →
    dictGet (cats.foldl (fun acc c => dictSet acc c.id c.type) m) c.id = some c.type := by
  induction cats generalizing m with
  | nil => intro _ hc; cases hc
  | cons c0 rest ih =>
    intro hnodup hc
    rw [List.map_cons] at hnodup
    have hn := List.nodup_cons.mp hnodup
    rcases List.mem_cons.mp hc with rfl | hmem
    · rw [List.foldl_cons,
        dictGet_foldl_not_mem rest _ c.id
          (fun d hd he => hn.1 (List.mem_map.mpr ⟨d, hd, he⟩))]
      exact dictGet_dictSet_self m c.id c.type
    · rw [List.foldl_cons]
      exact ih _ hn.2 hmem

theorem dictGet_buildCategoriesMap (cats : List Category)
    (hnodup : (cats.map Category.id).Nodup) (c : Category) (hc : c ∈ cats) :
    dictGet (buildCategoriesMap cats) c.id = some c.type :=
  dictGet_foldl_mem cats [] c hnodup hc

theorem pyResolveIndex_ofNat (len n : Nat) :
    pyResolveIndex len (n : Int) = min n len := by
  unfold pyResolveIndex
  split <;> omega

theorem take_min_length {α : Type u} (l : List α) (n : Nat) :
    l.take (min n l.length) = l.take n := by
  rcases Nat.le_total n l.length with h | h
  · rw [Nat.min_eq_left h]
  · rw [Nat.min_eq_right h, List.take_length, List.take_of_length_le h]

theorem pySlice_ofNat {α : Type u} (l : List α) (a b : Nat) :
    pySlice l (a : Int) (b : Int) = (l.take b).drop a := by
  unfold pySlice
  rw [pyResolveIndex_ofNat, pyResolveIndex_ofNat, take_min_length]
  rcases Nat.le_total a l.length with h | h
  · rw [Nat.min_eq_left h]
  · rw [Nat.min_eq_right h, List.drop_eq_nil_of_le, List.drop_eq_nil_of_le] <;>
      · simp only [List.length_take]
        omega

theorem paginate_questions_ofNat_succ (k : Nat) (L : List Question) :
    paginate_questions ((k + 1 : Nat) : Int) L
      = (L.take ((k + 1) * QUESTIONS_PER_PAGE)).drop (k * QUESTIONS_PER_PAGE) := by
  unfold paginate_questions
  have h1 : (((k + 1 : Nat) : Int) - 1) * (QUESTIONS_PER_PAGE : Int)
      = ((k * QUESTIONS_PER_PAGE : Nat) : Int) := by push_cast; ring
  have h2 : (((k + 1 : Nat) : Int) - 1) * (QUESTIONS_PER_PAGE : Int) + (QUESTIONS_PER_PAGE : Int)
      = (((k + 1) * QUESTIONS_PER_PAGE : Nat) : Int) := by push_cast; ring
  rw [h2, h1]
  exact pySlice_ofNat L (k * QUESTIONS_PER_PAGE) ((k + 1) * QUESTIONS_PER_PAGE)

theorem paginate_questions_zero (L : List Question) :
    paginate_questions ((0 : Nat) : Int) L = [] := by
  unfold paginate_questions pySlice
  have h : (((0 : Nat) : Int) - 1) * (QUESTIONS_PER_PAGE : Int) + (QUESTIONS_PER_PAGE : Int)
      = ((0 : Nat) : Int) := by push_cast; ring
  rw [h, pyResolveIndex_ofNat]
  simp

theorem length_questionsByCategory (store : List Question) (category_id : Nat) :
    (questionsByCategory store category_id).length
      = (if category_id = 0 then store
         else store.filter fun q => q.category == toString category_id).length := by
  unfold questionsByCategory
  by_cases h0 : category_id = 0
  · rw [if_neg (fun h => h h0), if_pos h0, length_orderById]
  · rw [if_pos h0, if_neg h0, length_orderById]

theorem mem_quizCandidates_not_prev (store : List Question) (b : QuizBody)
    (prev : List Nat) (hprev : b.previous_questions = some prev) (hne : prev ≠ [])
    (q : Question) (hq : q ∈ quizCandidates store b) : q.id ∉ prev := by
  intro hmem
  have htr : truthyList b.previous_questions = true := by
    rw [hprev]
    cases prev with
    | nil => exact absurd rfl hne
    | cons a l => rfl
  unfold quizCandidates at hq
  rw [htr] at hq
  simp only [Bool.true_eq_false, if_false] at hq
  rw [hprev] at hq
  simp only [Option.getD_some] at hq
  rcases hcat : b.quiz_category with _ | c <;> rw [hcat] at hq
  · have hf := (List.mem_filter.mp hq).2
    simp [(pyIn_iff q.id prev).mpr hmem] at hf
  · have hq' : q ∈ (if c.id.ne0 = true then
          store.filter fun q => q.category == c.id.pyStr && !pyIn q.id prev
        else store.filter fun q => !pyIn q.id prev) := hq
    by_cases hne0 : c.id.ne0 = true
    · rw [if_pos hne0] at hq'
      have hf := (List.mem_filter.mp hq').2
      simp [(pyIn_iff q.id prev).mpr hmem] at hf
    · rw [if_neg hne0] at hq'
      have hf := (List.mem_filter.mp hq').2
      simp [(pyIn_iff q.id prev).mpr hmem] at hf

theorem play_quiz_some (store : List Question) (b : QuizBody) (r : Nat) :
    play_quiz store (some b) r
      = match quizCandidates store b with
        | [] => .error .emptyRange
        | q :: rest =>
          .ok ⟨true, (q :: rest).get ⟨r % (q :: rest).length,
            Nat.mod_lt r (Nat.succ_pos rest.length)⟩⟩ := rfl

theorem create_or_search_questions_some (qstore : List Question)
    (cstore : List Category) (page : Int) (b : CreateSearchBody) :
    create_or_search_questions qstore cstore page (some b)
      = if truthyStr b.searchTerm = false then create_question_branch qstore page b
        else
          match qstore.filter (fun q => strContains q.question (b.searchTerm.getD "")) with
          | [] => (.error (.abort 404 none), qstore)
          | _ :: _ =>
            (.ok (.search ⟨true,
              qstore.filter (fun q => strContains q.question (b.searchTerm.getD "")),
              qstore.length, buildCategoriesMap cstore⟩), qstore) := rfl

/-! ### The claims -/

/-- Claim C8: for every non-negative page number p and every list of
formatted records L, the pagination helper is a pure function returning
exactly the slice of L from index (p-1)*10 inclusive to p*10 exclusive,
and when (p-1)*10 is at or beyond the length of L the result is empty. -/
theorem paginate_questions_slice (p : Nat) (L : List Question) :
    paginate_questions (p : Int) L
      = (L.take (p * QUESTIONS_PER_PAGE)).drop ((p - 1) * QUESTIONS_PER_PAGE)
    ∧ (L.length ≤ (p - 1) * QUESTIONS_PER_PAGE → paginate_questions (p : Int) L = []) := by
  have heq : paginate_questions (p : Int) L
      = (L.take (p * QUESTIONS_PER_PAGE)).drop ((p - 1) * QUESTIONS_PER_PAGE) := by
    cases p with
    | zero => rw [paginate_questions_zero]; simp
    | succ k => simpa using paginate_questions_ofNat_succ k L
  refine ⟨heq, fun h => ?_⟩
  rw [heq]
  apply List.drop_eq_nil_of_le
  simp only [List.length_take]
  omega

/-- Witness for paginate_questions_slice: page 2 of a one-element list is
out of range and empty. -/
theorem paginate_questions_slice_applied :
    [q1].length ≤ (2 - 1) * QUESTIONS_PER_PAGE
    ∧ paginate_questions ((2 : Nat) : Int) [q1] = [] :=
  ⟨by decide, (paginate_questions_slice 2 [q1]).2 (by decide)⟩

/-- Claim C9: GET /categories fails with 405 "method not allowed" exactly
when the categories table is empty; otherwise it succeeds with
success = true and a mapping sending every stored category id to its type
string. -/
theorem get_all_categories_spec (cats : List Category)
    (hnodup : (cats.map Category.id).Nodup) :
    ((∃ e, get_all_categories cats = .error e) ↔ cats = [])
    ∧ (cats = [] →
        get_all_categories cats = .error (.abort 405 none)
        ∧ renderError (.abort 405 none) = .ok ⟨false, 405, "method not allowed"⟩)
    ∧ (∀ resp, get_all_categories cats = .ok resp →
        resp.success = true
        ∧ ∀ c ∈ cats, dictGet resp.categories c.id = some c.type) := by
  refine ⟨⟨?_, ?_⟩, ?_, ?_⟩
  · rintro ⟨e, he⟩
    cases cats with
    | nil => rfl
    | cons c rest => simp [get_all_categories] at he
  · rintro rfl
    exact ⟨.abort 405 none, rfl⟩
  · rintro rfl
    exact ⟨rfl, rfl⟩
  · intro resp hresp
    cases cats with
    | nil => simp [get_all_categories] at hresp
    | cons c0 rest =>
      simp only [get_all_categories] at hresp
      cases hresp
      exact ⟨rfl, fun c hc => dictGet_buildCategoriesMap _ hnodup c hc⟩

/-- Witness for get_all_categories_spec: the singleton category store. -/
theorem get_all_categories_spec_applied :
    dictGet (buildCategoriesMap [cat1]) cat1.id = some cat1.type :=
  ((get_all_categories_spec [cat1] (by decide)).2.2
      ⟨true, buildCategoriesMap [cat1]⟩ rfl).2 cat1 (List.mem_singleton.mpr rfl)

/-- Claim C4 concerns a code defect: for a structured description object
with no message key, the mapper does not render the fallback text; the
dict subscript raises KeyError, which except TypeError does not catch, so
the exception escapes each of the 400, 404 and 422 handlers.  The fallback
only fires for a string description (the no-description default), where the
subscript raises TypeError. -/
theorem getErrorMessage_dict_without_message :
    bad_request (.dict [("info", "x")]) = .error .keyError
    ∧ ressource_not_found (.dict [("info", "x")]) = .error .keyError
    ∧ unprocessable (.dict [("info", "x")]) = .error .keyError
    ∧ bad_request (.str "default") = .ok ⟨false, 400, "bad request"⟩
    ∧ ressource_not_found (.str "default") = .ok ⟨false, 404, "resource not found"⟩
    ∧ unprocessable (.str "default") = .ok ⟨false, 422, "unprocessable"⟩ := by
  refine ⟨rfl, rfl, rfl, rfl, rfl, rfl⟩

/-- Claim C3: for every request whose candidate set (after category and
previous_questions filtering) is empty, the random selection of the quiz
handler raises (randint on an empty range) for every draw, rather than
returning a "no more questions" response such as question = null with
success = true. -/
theorem play_quiz_empty_candidates (store : List Question) (b : QuizBody) (r : Nat)
    (h : quizCandidates store b = []) :
    play_quiz store (some b) r = .error .emptyRange := by
  rw [play_quiz_some, h]

/-- Witness for play_quiz_empty_candidates: the only stored question is
already in previous_questions, so the candidate set is empty and the
handler errors. -/
theorem play_quiz_empty_candidates_applied :
    quizCandidates [q1] ⟨some [1], none⟩ = []
    ∧ play_quiz [q1] (some ⟨some [1], none⟩) 0 = .error .emptyRange :=
  ⟨rfl, play_quiz_empty_candidates [q1] ⟨some [1], none⟩ 0 rfl⟩

/-- Claim C2 fails for the string id "0": Python "0" != 0 holds, so the
handler filters by category "0" instead of drawing from all questions;
with one question stored under category "1" the candidate set is empty,
not the full store, and the handler errors instead of returning it. -/
theorem quiz_str_zero_filters :
    quizCandidates [q1] ⟨none, some ⟨.str "0"⟩⟩ = []
    ∧ [q1] ≠ ([] : List Question)
    ∧ play_quiz [q1] (some ⟨none, some ⟨.str "0"⟩⟩) 0 = .error .emptyRange :=
  ⟨rfl, by decide, rfl⟩

/-- Claim C2 amended: only the integer id 0 (or an absent quiz_category) is
the "any category" sentinel, dropping just the previous_questions ids; any
string id, "0" included, is treated as a specific category and the
candidates are filtered by category equal to that string. -/
theorem quiz_category_sentinel (store : List Question) (b : QuizBody) :
    (b.quiz_category = some ⟨.int 0⟩ ∨ b.quiz_category = none →
      quizCandidates store b
        = if truthyList b.previous_questions then
            store.filter fun q => !pyIn q.id (b.previous_questions.getD [])
          else store)
    ∧ (∀ s, b.quiz_category = some ⟨.str s⟩ →
      quizCandidates store b
        = if truthyList b.previous_questions then
            store.filter fun q => q.category == s && !pyIn q.id (b.previous_questions.getD [])
          else store.filter fun q => q.category == s) := by
  constructor
  · rintro (hcat | hcat) <;>
    · unfold quizCandidates
      rw [hcat]
      cases htr : truthyList b.previous_questions <;>
        simp [htr, QuizCategoryId.ne0]
  · intro s hcat
    unfold quizCandidates
    rw [hcat]
    cases htr : truthyList b.previous_questions <;>
      simp [htr, QuizCategoryId.ne0, QuizCategoryId.pyStr]

/-- Witness for quiz_category_sentinel: integer id 0 with a non-empty
previous_questions list keeps every question not already shown. -/
theorem quiz_category_sentinel_applied :
    quizCandidates [q1, q2] ⟨some [1], some ⟨.int 0⟩⟩
      = if truthyList (some [1]) then
          [q1, q2].filter fun q => !pyIn q.id ((some [1]).getD [])
        else [q1, q2] :=
  (quiz_category_sentinel [q1, q2] ⟨some [1], some ⟨.int 0⟩⟩).1 (Or.inl rfl)

/-- Claim C1: whenever the quiz handler returns a question and the request
supplied a non-empty previous_questions list, the id of the returned
question is not a member of that list, for the specific-category and the
any-category candidate sets alike. -/
theorem play_quiz_not_previous (store : List Question) (b : QuizBody) (r : Nat)
    (prev : List Nat) (hprev : b.previous_questions = some prev) (hne : prev ≠ [])
    (resp : QuizResp) (hok : play_quiz store (some b) r = .ok resp) :
    resp.question.id ∉ prev := by
  rw [play_quiz_some] at hok
  rcases hcand : quizCandidates store b with _ | ⟨q0, rest⟩ <;> rw [hcand] at hok
  · cases hok
  · cases hok
    exact mem_quizCandidates_not_prev store b prev hprev hne _
      (by rw [hcand]; exact List.get_mem _ _ _)

/-- Witness for play_quiz_not_previous: two stored questions, the first
already shown; the handler returns the second. -/
theorem play_quiz_not_previous_applied :
    play_quiz [q1, q2] (some ⟨some [1], none⟩) 0 = .ok ⟨true, q2⟩
    ∧ (⟨true, q2⟩ : QuizResp).question.id ∉ [1] :=
  ⟨rfl, play_quiz_not_previous [q1, q2] ⟨some [1], none⟩ 0 [1] rfl
    (by decide) ⟨true, q2⟩ rfl⟩

/-- Claim C5: with a non-empty searchTerm the endpoint searches: the store
is untouched; zero matches abort 404 with the fallback "resource not
found"; otherwise the response holds exactly the questions whose text
contains the term as a case-sensitive substring (unpaginated), the count
of all stored questions as total_questions, and the full category mapping
under current_category. -/
theorem search_questions_spec (qstore : List Question) (cstore : List Category)
    (page : Int) (b : CreateSearchBody) (s : String)
    (hs : b.searchTerm = some s) (hns : s ≠ "") :
    (create_or_search_questions qstore cstore page (some b)).2 = qstore
    ∧ (qstore.filter (fun q => strContains q.question s) = [] →
        (create_or_search_questions qstore cstore page (some b)).1
          = .error (.abort 404 none)
        ∧ renderError (.abort 404 none) = .ok ⟨false, 404, "resource not found"⟩)
    ∧ (∀ sr, (create_or_search_questions qstore cstore page (some b)).1 = .ok (.search sr) →
        sr.success = true
        ∧ sr.questions = qstore.filter (fun q => strContains q.question s)
        ∧ (∀ q, q ∈ sr.questions ↔
            q ∈ qstore ∧ ∃ l1 l2, q.question.data = l1 ++ s.data ++ l2)
        ∧ sr.total_questions = qstore.length
        ∧ sr.current_category = buildCategoriesMap cstore
        ∧ ((cstore.map Category.id).Nodup →
            ∀ c ∈ cstore, dictGet sr.current_category c.id = some c.type))
    ∧ (∀ cr, (create_or_search_questions qstore cstore page (some b)).1 ≠ .ok (.create cr)) := by
  have hsb : (s == "") = false := by
    rw [beq_eq_false_iff_ne]
    exact hns
  have hcond : ¬(truthyStr b.searchTerm = false) := by
    rw [hs]
    simp [truthyStr, hsb]
  have hred : create_or_search_questions qstore cstore page (some b)
      = (match qstore.filter (fun q => strContains q.question s) with
         | [] => (Except.error (HError.abort 404 none), qstore)
         | _ :: _ =>
           (Except.ok (.search ⟨true, qstore.filter (fun q => strContains q.question s),
             qstore.length, buildCategoriesMap cstore⟩), qstore)) := by
    rw [create_or_search_questions_some, if_neg hcond, hs]
    rfl
  rcases hf : qstore.filter (fun q => strContains q.question s) with _ | ⟨m0, ms⟩ <;>
    rw [hf] at hred
  · refine ⟨by rw [hred], fun _ => ⟨by rw [hred], rfl⟩, ?_, ?_⟩
    · intro sr hsr
      rw [hred] at hsr
      cases hsr
    · intro cr hcr
      rw [hred] at hcr
      cases hcr
  · refine ⟨by rw [hred], fun h => absurd (hf.symm.trans h) (by simp), ?_, ?_⟩
    · intro sr hsr
      rw [hred] at hsr
      simp only [Except.ok.injEq, CreateSearchResp.search.injEq] at hsr
      subst hsr
      refine ⟨rfl, hf.symm, ?_, rfl, rfl, ?_⟩
      · intro q
        rw [show m0 :: ms = qstore.filter (fun q => strContains q.question s) from hf.symm]
        simp [List.mem_filter, strContains_iff]
      · intro hnodup c hc
        exact dictGet_buildCategoriesMap cstore hnodup c hc
    · intro cr hcr
      rw [hred] at hcr
      cases hcr

/-- Witness for search_questions_spec: searching "sky" finds the first
sample question, unpaginated. -/
theorem search_questions_spec_applied :
    ("sky" : String) ≠ ""
    ∧ (⟨true, [q1], 1, buildCategoriesMap [cat1]⟩ : SearchResp).questions
        = [q1].filter fun q => strContains q.question "sky" :=
  ⟨by decide,
    ((search_questions_spec [q1] [cat1] 1 ⟨some "sky", none, none, none, none⟩ "sky"
        rfl (by decide)).2.2.1
      ⟨true, [q1], 1, buildCategoriesMap [cat1]⟩ rfl).2.1⟩

/-- Claim C6: on the create path (no truthy searchTerm), the mandatory
fields are checked in the fixed order question, answer, category,
difficulty; the first absent-or-falsy one aborts 400 with its
field-specific message and the questions table is unchanged. -/
theorem create_missing_field_order (qstore : List Question) (cstore : List Category)
    (page : Int) (b : CreateSearchBody) (hsearch : truthyStr b.searchTerm = false) :
    (truthyStr b.question = false →
      create_or_search_questions qstore cstore page (some b)
        = (.error (.abort 400 (some "Question is a mandatory field")), qstore))
    ∧ (truthyStr b.question = true → truthyStr b.answer = false →
      create_or_search_questions qstore cstore page (some b)
        = (.error (.abort 400 (some "Answer is a mandatory field")), qstore))
    ∧ (truthyStr b.question = true → truthyStr b.answer = true →
       truthyStr b.category = false →
      create_or_search_questions qstore cstore page (some b)
        = (.error (.abort 400 (some "Category is a mandatory field")), qstore))
    ∧ (truthyStr b.question = true → truthyStr b.answer = true →
       truthyStr b.category = true → truthyInt b.difficulty = false →
      create_or_search_questions qstore cstore page (some b)
        = (.error (.abort 400 (some "Difficulty is a mandatory field")), qstore)) := by
  have hred : create_or_search_questions qstore cstore page (some b)
      = create_question_branch qstore page b := by
    rw [create_or_search_questions_some, if_pos hsearch]
  refine ⟨fun h1 => ?_, fun h1 h2 => ?_, fun h1 h2 h3 => ?_, fun h1 h2 h3 h4 => ?_⟩ <;>
    · rw [hred]
      unfold create_question_branch
      simp [*]

/-- Witness for create_missing_field_order: the all-empty body fails on
the question field first. -/
theorem create_missing_field_order_applied :
    truthyStr (⟨none, none, none, none, none⟩ : CreateSearchBody).question = false
    ∧ create_or_search_questions [] [] 1 (some ⟨none, none, none, none, none⟩)
        = (.error (.abort 400 (some "Question is a mandatory field")), []) :=
  ⟨rfl, (create_missing_field_order [] [] 1 ⟨none, none, none, none, none⟩ rfl).1 rfl⟩

/-- Claim C7: listing questions by category: id 0 selects every stored
question and any other id selects exactly the questions whose category
equals that id, ordered by ascending id; an empty selection aborts 400
"bad request"; a non-empty selection whose requested page is empty aborts
404 with "No questions in selected page."; on success total_questions is
the pre-pagination size of the selection and current_category echoes the
requested id. -/
theorem get_questions_from_categories_spec (store : List Question)
    (category_id : Nat) (page : Int) :
    (∀ q, q ∈ questionsByCategory store category_id ↔
        q ∈ store ∧ (category_id ≠ 0 → q.category = toString category_id))
    ∧ (questionsByCategory store category_id).Pairwise (fun a b => a.id ≤ b.id)
    ∧ (questionsByCategory store category_id = [] →
        get_questions_from_categories store category_id page = .error (.abort 400 none)
        ∧ renderError (.abort 400 none) = .ok ⟨false, 400, "bad request"⟩)
    ∧ (questionsByCategory store category_id ≠ [] →
       paginate_questions page (questionsByCategory store category_id) = [] →
        get_questions_from_categories store category_id page
          = .error (.abort 404 (some "No questions in selected page."))
        ∧ renderError (.abort 404 (some "No questions in selected page."))
          = .ok ⟨false, 404, "No questions in selected page."⟩)
    ∧ (∀ resp, get_questions_from_categories store category_id page = .ok resp →
        resp.success = true
        ∧ resp.questions = paginate_questions page (questionsByCategory store category_id)
        ∧ resp.total_questions = (questionsByCategory store category_id).length
        ∧ resp.total_questions
            = (if category_id = 0 then store
               else store.filter fun q => q.category == toString category_id).length
        ∧ resp.current_category = category_id) := by
  refine ⟨?_, ?_, ?_, ?_, ?_⟩
  · intro q
    unfold questionsByCategory
    by_cases h0 : category_id = 0
    · rw [if_neg (fun h => h h0)]
      simp [mem_orderById, h0]
    · rw [if_pos h0]
      simp [mem_orderById, List.mem_filter, h0]
  · unfold questionsByCategory
    split <;> exact pairwise_orderById _
  · intro h
    refine ⟨?_, rfl⟩
    unfold get_questions_from_categories
    rw [h]
  · intro hne hpag
    refine ⟨?_, rfl⟩
    unfold get_questions_from_categories
    rcases hsel : questionsByCategory store category_id with _ | ⟨q, rest⟩
    · exact absurd hsel hne
    · rw [hsel] at hpag
      show (match paginate_questions page (q :: rest) with
          | [] => Except.error (HError.abort 404 (some "No questions in selected page."))
          | p :: ps =>
            Except.ok (⟨true, p :: ps, (q :: rest).length, category_id⟩ : CategoryQuestionsResp))
        = Except.error (HError.abort 404 (some "No questions in selected page."))
      rw [hpag]
  · intro resp hresp
    unfold get_questions_from_categories at hresp
    rcases hsel : questionsByCategory store category_id with _ | ⟨q, rest⟩ <;>
      rw [hsel] at hresp
    · cases hresp
    · have hresp' : (match paginate_questions page (q :: rest) with
          | [] => Except.error (HError.abort 404 (some "No questions in selected page."))
          | p :: ps =>
            Except.ok (⟨true, p :: ps, (q :: rest).length, category_id⟩ : CategoryQuestionsResp))
          = Except.ok resp := hresp
      rcases hpag : paginate_questions page (q :: rest) with _ | ⟨p, ps⟩ <;>
        rw [hpag] at hresp'
      · cases hresp'
      · cases hresp'
        refine ⟨rfl, rfl, rfl, ?_, rfl⟩
        rw [show (q :: rest) = questionsByCategory store category_id from hsel.symm]
        exact length_questionsByCategory store category_id

/-- Witness for get_questions_from_categories_spec: the sample store has no
question in category 2, so the selection is empty and the request aborts
400 "bad request". -/
theorem get_questions_from_categories_spec_applied :
    get_questions_from_categories [q1] 2 1 = .error (.abort 400 none)
    ∧ renderError (.abort 400 none) = .ok ⟨false, 400, "bad request"⟩ :=
  (get_questions_from_categories_spec [q1] 2 1).2.2.1 rfl

/-- Claim C10: a searchTerm equal to the empty string is falsy, so no
search happens: the request behaves exactly like one without a searchTerm,
and when the question field is also absent it aborts 400 with "Question is
a mandatory field" instead of a search 404. -/
theorem empty_search_term_falls_through (qstore : List Question)
    (cstore : List Category) (page : Int) (b : CreateSearchBody)
    (hs : b.searchTerm = some "") :
    create_or_search_questions qstore cstore page (some b)
      = create_or_search_questions qstore cstore page
          (some { b with searchTerm := none })
    ∧ (b.question = none →
      (create_or_search_questions qstore cstore page (some b)).1
        = .error (.abort 400 (some "Question is a mandatory field"))) := by
  have h1 : truthyStr b.searchTerm = false := by rw [hs]; rfl
  have h2 : truthyStr ({ b with searchTerm := none } : CreateSearchBody).searchTerm = false := rfl
  constructor
  · rw [create_or_search_questions_some, if_pos h1,
      create_or_search_questions_some, if_pos h2]
    rfl
  · intro hq
    have h3 : truthyStr b.question = false := by rw [hq]; rfl
    rw [create_or_search_questions_some, if_pos h1]
    unfold create_question_branch
    rw [if_pos h3]

/-- Witness for empty_search_term_falls_through: empty searchTerm with no
question field gives the create-path 400, not a search 404. -/
theorem empty_search_term_falls_through_applied :
    (create_or_search_questions [q1] [cat1] 1
        (some ⟨some "", none, none, none, none⟩)).1
      = .error (.abort 400 (some "Question is a mandatory field")) :=
  (empty_search_term_falls_through [q1] [cat1] 1
    ⟨some "", none, none, none, none⟩ rfl).2 rfl

end Trivia
